import Mathlib

/-!
Shallow embedding of `atip/sim_data_source.py` (classes `ATElementDataSource`,
`ATLatticeDataSource`, `ATAcceleratorData`) and proofs about the contracts of
its field adapters and its background recalculation loop.

Numeric attributes are modelled as exact rationals; Python arrays indexed by a
cell number become functions from that index; a Python `raise` becomes an
`Except.error` carrying the exception kind.  The value argument that the code
uses both as the set value and as the get/set flag (`None` = get) is an
`Option ℚ`.
-/

/-- Kinds of Python exceptions that the modelled code paths can raise.  Only
the kind is relevant to the adapter contracts, so messages are dropped.
`fieldException` and `handleException` are `pytac.exceptions.FieldException`
and `pytac.exceptions.HandleException`; the others are Python built-ins. -/
inductive PyErr
  | fieldException
  | handleException
  | keyError
  | typeError
  | zeroDivisionError
  | indexError
deriving DecidableEq, Repr

/-- Class tag of a pyAT element (`at.elements.*`).  `Quadrupole` and
`Sextupole` are sibling classes in pyAT, so the two `isinstance` checks in the
source are modelled as equality with the corresponding tag. -/
inductive AtClass
  | drift
  | dipole
  | quadrupole
  | sextupole
  | rfCavity
  | corrector
  | monitor
deriving DecidableEq, Repr

/-- Model of a pyAT element: the attributes that `sim_data_source.py` reads or
writes.  `PolynomA`/`PolynomB`/`KickAngle` are arrays modelled as functions
from the cell index; `Index` is the element's 1-based position. -/
structure AtElement where
  atclass : AtClass
  PolynomA : ℕ → ℚ
  PolynomB : ℕ → ℚ
  Frequency : ℚ
  KickAngle : ℕ → ℚ
  Length : ℚ
  K : ℚ
  Index : ℕ
  Energy : ℚ

/-- Model of the tuple returned by `at.physics.get_twiss`: component `[1]` is
the tune array, `[2]` the chromaticity array, `[3]` the per-element record
array, whose named column access `[3][name]` is `twiss3 name` and whose
`[3]['closed_orbit'][:, c][i]` access is `closed_orbit i c`. -/
structure TwissData where
  tune : ℕ → ℚ
  chrom : ℕ → ℚ
  closed_orbit : ℕ → ℕ → ℚ
  twiss3 : String → ℕ → ℚ

/-- Data fields of `ATAcceleratorData`: the shared dirty flag `new_changes`,
the latest published twiss snapshot `_twiss` and the ring `_ring`.  The worker
threads started in `__init__` are modelled separately as the step relation
`Step` below. -/
structure ATAcceleratorData where
  new_changes : Bool
  twiss : TwissData
  ring : List AtElement

/-- Accessor `ATAcceleratorData.get_twiss`: returns the snapshot reference. -/
def ATAcceleratorData.get_twiss (ad : ATAcceleratorData) : TwissData :=
  ad.twiss

/-- Accessor `ATAcceleratorData.get_ring`. -/
def ATAcceleratorData.get_ring (ad : ATAcceleratorData) : List AtElement :=
  ad.ring

/-- Result of one call to a field function of `ATElementDataSource`:
the Python return value (`ret`, `none` on the set branch where the method
falls through returning `None`), the element and accelerator data afterwards,
and how many `new_changes = True` assignments (dirty signals) the call made. -/
structure FFRes where
  ret : Option ℚ
  element : AtElement
  ad : ATAcceleratorData
  signals : ℕ

/-- The element-side data source: holds the wrapped element (`_element`) and
the declared field list (`_fields`).  The shared `_ad` is passed explicitly to
each operation as state. -/
structure ATElementDataSource where
  element : AtElement
  fields : List String

/-- Method `ATElementDataSource.PolynomA`: `value is None` means get the
coefficient at `cell`; otherwise store it there and set the dirty flag. -/
def ATElementDataSource.PolynomA (e : AtElement) (ad : ATAcceleratorData)
    (cell : ℕ) (value : Option ℚ) : Except PyErr FFRes :=
  match value with
  | none => .ok ⟨some (e.PolynomA cell), e, ad, 0⟩
  | some v =>
      .ok ⟨none, { e with PolynomA := Function.update e.PolynomA cell v },
           { ad with new_changes := true }, 1⟩

/-- Method `ATElementDataSource.PolynomB`: as `PolynomA`, except that when the
element is a quadrupole the set branch first also assigns the cached strength
attribute `K` (for every cell, not only cell 1). -/
def ATElementDataSource.PolynomB (e : AtElement) (ad : ATAcceleratorData)
    (cell : ℕ) (value : Option ℚ) : Except PyErr FFRes :=
  match value with
  | none => .ok ⟨some (e.PolynomB cell), e, ad, 0⟩
  | some v =>
      let e1 := if e.atclass = AtClass.quadrupole then { e with K := v } else e
      .ok ⟨none, { e1 with PolynomB := Function.update e1.PolynomB cell v },
           { ad with new_changes := true }, 1⟩

/-- Method `ATElementDataSource.Orbit`: get reads the element's row of the
closed-orbit column `cell` of the current snapshot (`Index - 1` is the 0-based
row); set raises `HandleException` before touching any state. -/
def ATElementDataSource.Orbit (e : AtElement) (ad : ATAcceleratorData)
    (cell : ℕ) (value : Option ℚ) : Except PyErr FFRes :=
  match value with
  | none => .ok ⟨some (ad.get_twiss.closed_orbit (e.Index - 1) cell), e, ad, 0⟩
  | some _ => .error .handleException

/-- Method `ATElementDataSource.Frequency`: direct scalar get/set with a dirty
signal on set. -/
def ATElementDataSource.Frequency (e : AtElement) (ad : ATAcceleratorData)
    (value : Option ℚ) : Except PyErr FFRes :=
  match value with
  | none => .ok ⟨some e.Frequency, e, ad, 0⟩
  | some v =>
      .ok ⟨none, { e with Frequency := v }, { ad with new_changes := true }, 1⟩

/-- Method `ATElementDataSource.x_kick`: on a sextupole the kick aliases
`- PolynomB[0] * Length` (set back-solves `PolynomB[0] = - value / Length`,
raising `ZeroDivisionError` when `Length = 0` as Python float division does);
on any other class it is the stored `KickAngle[0]`. -/
def ATElementDataSource.x_kick (e : AtElement) (ad : ATAcceleratorData)
    (value : Option ℚ) : Except PyErr FFRes :=
  if e.atclass = AtClass.sextupole then
    match value with
    | none => .ok ⟨some (-(e.PolynomB 0) * e.Length), e, ad, 0⟩
    | some v =>
        if e.Length = 0 then .error .zeroDivisionError
        else
          .ok ⟨none,
               { e with PolynomB := Function.update e.PolynomB 0 ((-v) / e.Length) },
               { ad with new_changes := true }, 1⟩
  else
    match value with
    | none => .ok ⟨some (e.KickAngle 0), e, ad, 0⟩
    | some v =>
        .ok ⟨none, { e with KickAngle := Function.update e.KickAngle 0 v },
             { ad with new_changes := true }, 1⟩

/-- Method `ATElementDataSource.y_kick`: on a sextupole the kick aliases
`PolynomA[0] * Length` (set back-solves `PolynomA[0] = value / Length`);
on any other class it is the stored `KickAngle[1]`. -/
def ATElementDataSource.y_kick (e : AtElement) (ad : ATAcceleratorData)
    (value : Option ℚ) : Except PyErr FFRes :=
  if e.atclass = AtClass.sextupole then
    match value with
    | none => .ok ⟨some (e.PolynomA 0 * e.Length), e, ad, 0⟩
    | some v =>
        if e.Length = 0 then .error .zeroDivisionError
        else
          .ok ⟨none,
               { e with PolynomA := Function.update e.PolynomA 0 (v / e.Length) },
               { ad with new_changes := true }, 1⟩
  else
    match value with
    | none => .ok ⟨some (e.KickAngle 1), e, ad, 0⟩
    | some v =>
        .ok ⟨none, { e with KickAngle := Function.update e.KickAngle 1 v },
             { ad with new_changes := true }, 1⟩

/-- The fixed dispatch dictionary `_field_functions` built in
`ATElementDataSource.__init__`.  A key outside the nine entries is absent, so
indexing `self._field_functions[field]` with it raises `KeyError`. -/
def ATElementDataSource.field_functions (field : String) :
    Option (AtElement → ATAcceleratorData → Option ℚ → Except PyErr FFRes) :=
  match field with
  | "a1" => some (fun e ad v => ATElementDataSource.PolynomA e ad 1 v)
  | "b0" => some (fun e ad v => ATElementDataSource.PolynomB e ad 0 v)
  | "b1" => some (fun e ad v => ATElementDataSource.PolynomB e ad 1 v)
  | "b2" => some (fun e ad v => ATElementDataSource.PolynomB e ad 2 v)
  | "x" => some (fun e ad v => ATElementDataSource.Orbit e ad 0 v)
  | "y" => some (fun e ad v => ATElementDataSource.Orbit e ad 2 v)
  | "f" => some ATElementDataSource.Frequency
  | "x_kick" => some ATElementDataSource.x_kick
  | "y_kick" => some ATElementDataSource.y_kick
  | _ => none

/-- Method `ATElementDataSource.get_value`: a declared field is dispatched
through the table with `value = None` and its return value is passed back;
an undeclared field raises `FieldException`.  A field that is declared but
missing from the table raises `KeyError` at the dictionary access. -/
def ATElementDataSource.get_value (ds : ATElementDataSource)
    (ad : ATAcceleratorData) (field : String) : Except PyErr (Option ℚ) :=
  if field ∈ ds.fields then
    match ATElementDataSource.field_functions field with
    | some f => (f ds.element ad none).map (fun r => r.ret)
    | none => .error .keyError
  else .error .fieldException

/-- Method `ATElementDataSource.set_value`: dispatches like `get_value` but
passes the set value through (which may be Python `None`, i.e. `none`) and
discards the function's return value.  The result carries the element and
accelerator data afterwards and the number of dirty signals issued. -/
def ATElementDataSource.set_value (ds : ATElementDataSource)
    (ad : ATAcceleratorData) (field : String) (value : Option ℚ) :
    Except PyErr (AtElement × ATAcceleratorData × ℕ) :=
  if field ∈ ds.fields then
    match ATElementDataSource.field_functions field with
    | some f => (f ds.element ad value).map (fun r => (r.element, r.ad, r.signals))
    | none => .error .keyError
  else .error .fieldException

/-- Method `ATElementDataSource.get_fields`. -/
def ATElementDataSource.get_fields (ds : ATElementDataSource) : List String :=
  ds.fields

/-- Observable outcome of one `set_value` call including Python's exception
semantics: a raise propagates to the caller leaving the element and the
accelerator data exactly as they were, with no dirty signal issued. -/
structure SetOutcome where
  element : AtElement
  ad : ATAcceleratorData
  signals : ℕ
  err : Option PyErr

/-- Run `set_value` and record the state the caller observes afterwards:
on success the updated state, on an exception the unchanged input state. -/
def ATElementDataSource.runSet (ds : ATElementDataSource)
    (ad : ATAcceleratorData) (field : String) (value : Option ℚ) : SetOutcome :=
  match ATElementDataSource.set_value ds ad field value with
  | .ok (e, ad2, n) => ⟨e, ad2, n, none⟩
  | .error err => ⟨ds.element, ad, 0, some err⟩

/-- Value of a lattice-level field: the read accessors return either a whole
array (a closed-orbit column or a per-element twiss column) or a scalar. -/
inductive LatVal
  | vec (v : ℕ → ℚ)
  | scalar (q : ℚ)

/-- The lattice-side data source: holds only the shared accelerator data
(`_ad`). -/
structure ATLatticeDataSource where
  ad : ATAcceleratorData

/-- Method `ATLatticeDataSource.read_closed_orbit`: column `field` of the
snapshot's closed orbit, over all elements. -/
def ATLatticeDataSource.read_closed_orbit (ds : ATLatticeDataSource)
    (field : ℕ) : LatVal :=
  .vec (fun i => ds.ad.get_twiss.closed_orbit i field)

/-- Method `ATLatticeDataSource.read_twiss3`: named column of the snapshot's
per-element record array. -/
def ATLatticeDataSource.read_twiss3 (ds : ATLatticeDataSource)
    (field : String) : LatVal :=
  .vec (ds.ad.get_twiss.twiss3 field)

/-- Method `ATLatticeDataSource.read_tune`: a tune entry reduced modulo 1.
Python's `% 1` on a number is `x - floor x`, i.e. `Int.fract`. -/
def ATLatticeDataSource.read_tune (ds : ATLatticeDataSource)
    (field : ℕ) : LatVal :=
  .scalar (Int.fract (ds.ad.get_twiss.tune field))

/-- Method `ATLatticeDataSource.read_chrom`: a chromaticity entry. -/
def ATLatticeDataSource.read_chrom (ds : ATLatticeDataSource)
    (field : ℕ) : LatVal :=
  .scalar (ds.ad.get_twiss.chrom field)

/-- Method `ATLatticeDataSource.get_energy`: energy attribute of the first
ring element; on an empty ring the Python indexing `ring[0]` raises
`IndexError`. -/
def ATLatticeDataSource.get_energy (ds : ATLatticeDataSource) :
    Except PyErr LatVal :=
  match ds.ad.get_ring with
  | [] => .error .indexError
  | e :: _ => .ok (.scalar e.Energy)

/-- The fixed dispatch dictionary `_field2twiss` built in
`ATLatticeDataSource.__init__`, as an association list: each key maps to the
result its bound read accessor produces on the current accelerator data. -/
def ATLatticeDataSource.field2twiss (ds : ATLatticeDataSource) :
    List (String × Except PyErr LatVal) :=
  [("x", .ok (ds.read_closed_orbit 0)),
   ("phase_x", .ok (ds.read_closed_orbit 1)),
   ("y", .ok (ds.read_closed_orbit 2)),
   ("phase_y", .ok (ds.read_closed_orbit 3)),
   ("m44", .ok (ds.read_twiss3 "m44")),
   ("s_position", .ok (ds.read_twiss3 "s_pos")),
   ("alpha", .ok (ds.read_twiss3 "alpha")),
   ("beta", .ok (ds.read_twiss3 "beta")),
   ("mu", .ok (ds.read_twiss3 "mu")),
   ("dispersion", .ok (ds.read_twiss3 "dispersion")),
   ("tune_x", .ok (ds.read_tune 0)),
   ("tune_y", .ok (ds.read_tune 1)),
   ("chromaticity_x", .ok (ds.read_chrom 0)),
   ("chromaticity_y", .ok (ds.read_chrom 1)),
   ("energy", ds.get_energy)]

/-- Method `ATLatticeDataSource.get_value`: a key present in `_field2twiss`
is looked up and its accessor invoked; any other field raises
`FieldException`. -/
def ATLatticeDataSource.get_value (ds : ATLatticeDataSource)
    (field : String) : Except PyErr LatVal :=
  match (ATLatticeDataSource.field2twiss ds).lookup field with
  | some r => r
  | none => .error .fieldException

/-- Method `ATLatticeDataSource.set_value` exactly as defined in the source:
it takes only `field` (the `value` parameter is missing from the signature)
and unconditionally raises `HandleException`. -/
def ATLatticeDataSource.set_value (ds : ATLatticeDataSource)
    (field : String) : Except PyErr Unit :=
  .error .handleException

/-- Model of a caller invoking the lattice adapter's set through the
`DataSource` interface, `set_value(field, value)`: because the method is
defined with a single `field` parameter, Python rejects the extra positional
argument with `TypeError` before the method body can run, so the
`HandleException` in the body is never reached. -/
def ATLatticeDataSource.set_value_call (ds : ATLatticeDataSource)
    (field : String) (value : ℚ) : Except PyErr Unit :=
  .error .typeError

/-- Method `ATLatticeDataSource.get_fields`: the key set of `_field2twiss`. -/
def ATLatticeDataSource.get_fields (ds : ATLatticeDataSource) : List String :=
  (ATLatticeDataSource.field2twiss ds).map Prod.fst

/-- Program counter of one worker thread executing
`ATAcceleratorData.recalculate_twiss`. -/
inductive WorkerPC
  | top
  | publish (r : ℕ)
  | dead
deriving DecidableEq, Repr

/-- Abstract state of the recalculation engine for the concurrency claims.
The mutable lattice is abstracted to a version counter `ring` that every
field-setter mutation bumps; `twiss` records which ring version the published
snapshot was computed from; `new_changes` is the shared dirty flag; `pc` is
the position of the (single) worker thread in its loop. -/
structure EngineState where
  ring : ℕ
  new_changes : Bool
  twiss : ℕ
  pc : WorkerPC
deriving DecidableEq, Repr

/-- Accessor `ATAcceleratorData.get_twiss` on the abstract engine state: the
ring version the currently published snapshot reflects. -/
def EngineState.get_twiss (s : EngineState) : ℕ :=
  s.twiss

/-- One step of the worker loop `recalculate_twiss`:

* `spin`: the `if self.new_changes is True` test fails and the loop iterates
  with no state change;
* `compute`: the test succeeds and `at.physics.get_twiss` runs to completion,
  reading the ring as of this step (a mutation landing after this step and
  before `store` is exactly a mutation the computation did not see);
* `computeRaise`: the test succeeds and `at.physics.get_twiss` raises; the
  loop has no handler, so the exception escapes the thread target and the
  thread terminates (state `dead`, from which no step exists);
* `store`: the computed result is assigned to `self._twiss` and then
  `self.new_changes = False` is executed unconditionally. -/
inductive WorkerStep : EngineState → EngineState → Prop
  | spin (s : EngineState) : s.pc = .top → s.new_changes = false →
      WorkerStep s s
  | compute (s : EngineState) : s.pc = .top → s.new_changes = true →
      WorkerStep s { s with pc := .publish s.ring }
  | computeRaise (s : EngineState) : s.pc = .top → s.new_changes = true →
      WorkerStep s { s with pc := .dead }
  | store (s : EngineState) (r : ℕ) : s.pc = .publish r →
      WorkerStep s { s with twiss := r, new_changes := false, pc := .top }

/-- One step of the whole system: either the worker moves, or some caller
mutates an element attribute through a field setter and sets the dirty flag
(the setters assign the attribute and then `new_changes = True`). -/
inductive Step : EngineState → EngineState → Prop
  | worker {s t : EngineState} : WorkerStep s t → Step s t
  | mutate (s : EngineState) :
      Step s { s with ring := s.ring + 1, new_changes := true }

/-- The writable declared element fields: every declared field except the two
read-only orbit fields `x` and `y`. -/
def writableFields : List String :=
  ["a1", "b0", "b1", "b2", "f", "x_kick", "y_kick"]

/-- An empty twiss snapshot used for concrete test states. -/
def twiss0 : TwissData :=
  ⟨fun _ => 0, fun _ => 0, fun _ _ => 0, fun _ _ => 0⟩

/-- A concrete accelerator-data value with the dirty flag clear. -/
def ad0 : ATAcceleratorData :=
  ⟨false, twiss0, []⟩

/-- A generic (non-sextupole, non-quadrupole) element with all attributes
zero. -/
def elem0 : AtElement :=
  ⟨AtClass.drift, fun _ => 0, fun _ => 0, 0, fun _ => 0, 0, 0, 1, 0⟩

/-- A sextupole of length 1/10 with zero multipole coefficients, as in the
spec's kick round-trip scenario. -/
def sext01 : AtElement :=
  ⟨AtClass.sextupole, fun _ => 0, fun _ => 0, 0, fun _ => 0, 1/10, 0, 1, 0⟩

/-- A quadrupole with `K = 0` and zero multipole coefficients. -/
def quad0 : AtElement :=
  ⟨AtClass.quadrupole, fun _ => 0, fun _ => 0, 0, fun _ => 0, 1/10, 0, 1, 0⟩

/-- A concrete lattice data source over `ad0`. -/
def latticeDS0 : ATLatticeDataSource :=
  ⟨ad0⟩

/-- The `K` attribute of the element produced by a `set_value` outcome, or
`none` when the call raised. -/
def setResultK (r : Except PyErr (AtElement × ATAcceleratorData × ℕ)) :
    Option ℚ :=
  match r with
  | .ok (e, _, _) => some e.K
  | .error _ => none

/-- Lookup in an association list whose key is absent yields nothing. -/
theorem lookup_eq_none_of_not_mem {β : Type} (field : String)
    (l : List (String × β)) (h : field ∉ l.map Prod.fst) :
    l.lookup field = none := by
  induction l with
  | nil => rfl
  | cons p t ih =>
      simp only [List.map_cons, List.mem_cons, not_or] at h
      have hne : (field == p.1) = false := beq_eq_false_iff_ne.mpr h.1
      simp [List.lookup, hne, ih h.2]

/-- From a state where the worker sits at the loop head and the dirty flag is
clear, the only worker step is the spinning no-op iteration. -/
theorem workerStep_of_clear {t u : EngineState} (h : WorkerStep t u)
    (hd : t.new_changes = false) (hp : t.pc = WorkerPC.top) : u = t := by
  cases h with
  | spin _ _ => rfl
  | compute h1 h2 => rw [hd] at h2; cases h2
  | computeRaise h1 h2 => rw [hd] at h2; cases h2
  | store r hr => rw [hp] at hr; cases hr

/-- A terminated worker thread makes no further step of any kind. -/
theorem workerStep_of_dead {t u : EngineState} (h : WorkerStep t u)
    (hp : t.pc = WorkerPC.dead) : False := by
  cases h with
  | spin h1 _ => rw [hp] at h1; cases h1
  | compute h1 _ => rw [hp] at h1; cases h1
  | computeRaise h1 _ => rw [hp] at h1; cases h1
  | store r hr => rw [hp] at hr; cases hr

/-- C1: the claim that no pending update is permanently lost is FALSE of the
code.  Witnessed interleaving: starting from the post-`__init__` state
(dirty flag set, snapshot computed from ring version 0), the worker reads the
flag and computes over ring version 0; a field setter then mutates the ring
(version 1) and sets `new_changes`; the worker then stores the version-0
result and unconditionally clears `new_changes`.  In the resulting state the
dirty flag is clear and the snapshot reflects version 0, not the last
mutation, and every execution of the worker alone from there leaves
`get_twiss` at version 0 forever: the update is permanently lost. -/
theorem C1_lost_update_race :
    Step ⟨0, true, 0, .top⟩ ⟨0, true, 0, .publish 0⟩ ∧
    Step ⟨0, true, 0, .publish 0⟩ ⟨1, true, 0, .publish 0⟩ ∧
    Step ⟨1, true, 0, .publish 0⟩ ⟨1, false, 0, .top⟩ ∧
    (⟨1, false, 0, .top⟩ : EngineState).get_twiss ≠
      (⟨1, false, 0, .top⟩ : EngineState).ring ∧
    (∀ t, Relation.ReflTransGen WorkerStep ⟨1, false, 0, .top⟩ t →
      t.get_twiss = 0 ∧ t.ring = 1 ∧ t.new_changes = false) := by
  refine ⟨Step.worker (WorkerStep.compute _ rfl rfl), Step.mutate _,
    Step.worker (WorkerStep.store _ 0 rfl), by decide, ?_⟩
  intro t ht
  have hfix : t = ⟨1, false, 0, .top⟩ := by
    induction ht with
    | refl => rfl
    | tail _ hstep ih =>
        subst ih
        exact workerStep_of_clear hstep rfl rfl
  subst hfix
  exact ⟨rfl, rfl, rfl⟩

/-- C2: the failure-isolation claim is PARTLY false of the code.  If
`at.physics.get_twiss` raises during a worker cycle, no snapshot is published,
`get_twiss` keeps returning the previous snapshot and the dirty flag stays
set — but `recalculate_twiss` has no exception handler, so the exception
escapes the loop and the worker thread terminates; with a single worker no
step can ever happen again, so recomputation is never retried and no later
successful attempt exists, contrary to the claim. -/
theorem C2_engine_failure_kills_worker :
    WorkerStep ⟨1, true, 0, .top⟩ ⟨1, true, 0, .dead⟩ ∧
    (⟨1, true, 0, .dead⟩ : EngineState).get_twiss =
      (⟨1, true, 0, .top⟩ : EngineState).get_twiss ∧
    (⟨1, true, 0, .dead⟩ : EngineState).new_changes = true ∧
    (∀ u, ¬ WorkerStep ⟨1, true, 0, .dead⟩ u) ∧
    (∀ u, Relation.ReflTransGen WorkerStep ⟨1, true, 0, .dead⟩ u →
      u.get_twiss = 0 ∧ u.new_changes = true) := by
  refine ⟨WorkerStep.computeRaise _ rfl rfl, rfl, rfl,
    fun u hu => workerStep_of_dead hu rfl, ?_⟩
  intro u hu
  have hfix : u = ⟨1, true, 0, .dead⟩ := by
    induction hu with
    | refl => rfl
    | tail _ hstep ih =>
        subst ih
        exact absurd hstep (fun h => workerStep_of_dead h rfl)
  subst hfix
  exact ⟨rfl, rfl⟩

/-- C3: for a sextupole the kick fields alias the multipole coefficients
scaled by the element length with the stated sign convention, setting them
back-solves the coefficient, and for the concrete length 1/10 the spec's
round-trip numbers hold; for every non-sextupole class the kick fields read
and write `KickAngle[0]` / `KickAngle[1]` directly. -/
theorem C3_sextupole_kick_algebra (e : AtElement) (ad : ATAcceleratorData)
    (v : ℚ) :
    (e.atclass = AtClass.sextupole →
      ATElementDataSource.get_value ⟨e, ["x_kick", "y_kick"]⟩ ad "x_kick" =
        .ok (some (-(e.PolynomB 0) * e.Length)) ∧
      ATElementDataSource.get_value ⟨e, ["x_kick", "y_kick"]⟩ ad "y_kick" =
        .ok (some (e.PolynomA 0 * e.Length)) ∧
      (e.Length ≠ 0 →
        ATElementDataSource.set_value ⟨e, ["x_kick", "y_kick"]⟩ ad "x_kick"
            (some v) =
          .ok ({ e with PolynomB := Function.update e.PolynomB 0 ((-v) / e.Length) },
               { ad with new_changes := true }, 1) ∧
        ATElementDataSource.set_value ⟨e, ["x_kick", "y_kick"]⟩ ad "y_kick"
            (some v) =
          .ok ({ e with PolynomA := Function.update e.PolynomA 0 (v / e.Length) },
               { ad with new_changes := true }, 1))) ∧
    (e.atclass ≠ AtClass.sextupole →
      ATElementDataSource.get_value ⟨e, ["x_kick", "y_kick"]⟩ ad "x_kick" =
        .ok (some (e.KickAngle 0)) ∧
      ATElementDataSource.get_value ⟨e, ["x_kick", "y_kick"]⟩ ad "y_kick" =
        .ok (some (e.KickAngle 1)) ∧
      ATElementDataSource.set_value ⟨e, ["x_kick", "y_kick"]⟩ ad "x_kick"
          (some v) =
        .ok ({ e with KickAngle := Function.update e.KickAngle 0 v },
             { ad with new_changes := true }, 1) ∧
      ATElementDataSource.set_value ⟨e, ["x_kick", "y_kick"]⟩ ad "y_kick"
          (some v) =
        .ok ({ e with KickAngle := Function.update e.KickAngle 1 v },
             { ad with new_changes := true }, 1)) ∧
    (ATElementDataSource.runSet ⟨sext01, ["x_kick", "y_kick"]⟩ ad0 "x_kick"
       (some 1)).element.PolynomB 0 = -10 ∧
    (ATElementDataSource.runSet ⟨sext01, ["x_kick", "y_kick"]⟩ ad0 "y_kick"
       (some 5)).element.PolynomA 0 = 50 ∧
    ATElementDataSource.get_value
      ⟨(ATElementDataSource.runSet ⟨sext01, ["x_kick", "y_kick"]⟩ ad0 "x_kick"
          (some 1)).element, ["x_kick", "y_kick"]⟩ ad0 "x_kick" =
      .ok (some 1) ∧
    ATElementDataSource.get_value
      ⟨(ATElementDataSource.runSet ⟨sext01, ["x_kick", "y_kick"]⟩ ad0 "y_kick"
          (some 5)).element, ["x_kick", "y_kick"]⟩ ad0 "y_kick" =
      .ok (some 5) := by
  refine ⟨fun hs => ⟨?_, ?_, fun hL => ⟨?_, ?_⟩⟩,
    fun hns => ⟨?_, ?_, ?_, ?_⟩, ?_, ?_, ?_, ?_⟩
  · simp [ATElementDataSource.get_value, ATElementDataSource.field_functions,
      ATElementDataSource.x_kick, hs, Except.map]
  · simp [ATElementDataSource.get_value, ATElementDataSource.field_functions,
      ATElementDataSource.y_kick, hs, Except.map]
  · simp [ATElementDataSource.set_value, ATElementDataSource.field_functions,
      ATElementDataSource.x_kick, hs, hL, Except.map]
  · simp [ATElementDataSource.set_value, ATElementDataSource.field_functions,
      ATElementDataSource.y_kick, hs, hL, Except.map]
  · simp [ATElementDataSource.get_value, ATElementDataSource.field_functions,
      ATElementDataSource.x_kick, hns, Except.map]
  · simp [ATElementDataSource.get_value, ATElementDataSource.field_functions,
      ATElementDataSource.y_kick, hns, Except.map]
  · simp [ATElementDataSource.set_value, ATElementDataSource.field_functions,
      ATElementDataSource.x_kick, hns, Except.map]
  · simp [ATElementDataSource.set_value, ATElementDataSource.field_functions,
      ATElementDataSource.y_kick, hns, Except.map]
  · norm_num [ATElementDataSource.runSet, ATElementDataSource.set_value,
      ATElementDataSource.field_functions, ATElementDataSource.x_kick,
      sext01, ad0, Function.update, Except.map]
  · norm_num [ATElementDataSource.runSet, ATElementDataSource.set_value,
      ATElementDataSource.field_functions, ATElementDataSource.y_kick,
      sext01, ad0, Function.update, Except.map]
  · norm_num [ATElementDataSource.runSet, ATElementDataSource.set_value,
      ATElementDataSource.get_value, ATElementDataSource.field_functions,
      ATElementDataSource.x_kick, sext01, ad0, Function.update, Except.map]
  · norm_num [ATElementDataSource.runSet, ATElementDataSource.set_value,
      ATElementDataSource.get_value, ATElementDataSource.field_functions,
      ATElementDataSource.y_kick, sext01, ad0, Function.update, Except.map]

/-- Witness for C3 at concrete inputs: a sextupole of length 1/10 and a drift
element, instantiating and discharging each hypothesis. -/
theorem C3_sextupole_kick_algebra_witness :
    (ATElementDataSource.get_value ⟨sext01, ["x_kick", "y_kick"]⟩ ad0 "x_kick" =
      .ok (some (-(sext01.PolynomB 0) * sext01.Length)) ∧
     ATElementDataSource.set_value ⟨sext01, ["x_kick", "y_kick"]⟩ ad0 "x_kick"
         (some 1) =
       .ok ({ sext01 with
               PolynomB := Function.update sext01.PolynomB 0 ((-1) / sext01.Length) },
            { ad0 with new_changes := true }, 1)) ∧
    ATElementDataSource.get_value ⟨elem0, ["x_kick", "y_kick"]⟩ ad0 "x_kick" =
      .ok (some (elem0.KickAngle 0)) := by
  refine ⟨⟨?_, ?_⟩, ?_⟩
  · exact ((C3_sextupole_kick_algebra sext01 ad0 1).1 rfl).1
  · exact (((C3_sextupole_kick_algebra sext01 ad0 1).1 rfl).2.2
      (by norm_num [sext01])).1
  · exact ((C3_sextupole_kick_algebra elem0 ad0 1).2.1 (by decide)).1

/-- C4 counterexample: the dual write to the cached strength attribute is not
confined to the primary quadrupole coefficient field — setting 'b0' on a
quadrupole whose `K` is 0 also stores `K = 1`, so the dual write is not the
special case of 'b1' that the claim describes. -/
theorem C4_counterexample_dual_write_not_only_b1 :
    setResultK (ATElementDataSource.set_value ⟨quad0, ["b0"]⟩ ad0 "b0"
      (some 1)) = some 1 ∧ quad0.K = 0 := by
  exact ⟨rfl, rfl⟩

/-- C4 (amended): on a quadrupole-class element the dual write happens for
EVERY PolynomB coefficient field — 'b0', 'b1' and 'b2' each store both the
coefficient and the cached strength attribute `K`, with exactly one dirty
signal per call; in particular `set_value('b1', v)` gives `PolynomB[1] = v`
and `K = v`; on a non-quadrupole element a coefficient set writes only the
coefficient. -/
theorem C4_quadrupole_dual_write (e : AtElement) (ad : ATAcceleratorData)
    (v : ℚ) :
    (e.atclass = AtClass.quadrupole →
      ∀ p : String × ℕ, p ∈ [("b0", 0), ("b1", 1), ("b2", 2)] →
        ATElementDataSource.set_value ⟨e, [p.1]⟩ ad p.1 (some v) =
          .ok ({ e with K := v, PolynomB := Function.update e.PolynomB p.2 v },
               { ad with new_changes := true }, 1)) ∧
    (e.atclass ≠ AtClass.quadrupole →
      ATElementDataSource.set_value ⟨e, ["b1"]⟩ ad "b1" (some v) =
        .ok ({ e with PolynomB := Function.update e.PolynomB 1 v },
             { ad with new_changes := true }, 1)) := by
  constructor
  · intro hq p hp
    rcases (by simpa using hp : p = ("b0", 0) ∨ p = ("b1", 1) ∨ p = ("b2", 2))
      with rfl | rfl | rfl <;>
      simp [ATElementDataSource.set_value, ATElementDataSource.field_functions,
        ATElementDataSource.PolynomB, hq, Except.map]
  · intro hnq
    simp [ATElementDataSource.set_value, ATElementDataSource.field_functions,
      ATElementDataSource.PolynomB, hnq, Except.map]

/-- Witness for C4 at concrete inputs: the quadrupole `quad0` with 'b1' and
the drift `elem0` with 'b1'. -/
theorem C4_quadrupole_dual_write_witness :
    ATElementDataSource.set_value ⟨quad0, ["b1"]⟩ ad0 "b1" (some (1/2)) =
      .ok ({ quad0 with
              K := 1/2
              PolynomB := Function.update quad0.PolynomB 1 (1/2) },
           { ad0 with new_changes := true }, 1) ∧
    ATElementDataSource.set_value ⟨elem0, ["b1"]⟩ ad0 "b1" (some (1/2)) =
      .ok ({ elem0 with PolynomB := Function.update elem0.PolynomB 1 (1/2) },
           { ad0 with new_changes := true }, 1) := by
  constructor
  · exact (C4_quadrupole_dual_write quad0 ad0 (1/2)).1 rfl ("b1", 1) (by decide)
  · exact (C4_quadrupole_dual_write elem0 ad0 (1/2)).2 (by decide)

/-- C5: every successful `set_value` of an actual value on a writable declared
field leaves the shared dirty flag `new_changes` true on return and issues
exactly one dirty signal; an attempted set on an orbit field issues no dirty
signal. -/
theorem C5_dirty_flag_invariant (ds : ATElementDataSource)
    (ad : ATAcceleratorData) (field : String) (v : ℚ) :
    (field ∈ writableFields →
      (ATElementDataSource.runSet ds ad field (some v)).err = none →
      (ATElementDataSource.runSet ds ad field (some v)).ad.new_changes = true ∧
      (ATElementDataSource.runSet ds ad field (some v)).signals = 1) ∧
    (ATElementDataSource.runSet ds ad "x" (some v)).signals = 0 ∧
    (ATElementDataSource.runSet ds ad "y" (some v)).signals = 0 := by
  refine ⟨fun hw => ?_, ?_, ?_⟩
  · simp only [writableFields, List.mem_cons, List.not_mem_nil, or_false] at hw
    by_cases hmem : field ∈ ds.fields
    · rcases hw with rfl | rfl | rfl | rfl | rfl | rfl | rfl <;>
        by_cases hc : ds.element.atclass = AtClass.sextupole <;>
        by_cases hL : ds.element.Length = 0 <;>
        simp [ATElementDataSource.runSet, ATElementDataSource.set_value,
          ATElementDataSource.field_functions, ATElementDataSource.PolynomA,
          ATElementDataSource.PolynomB, ATElementDataSource.Frequency,
          ATElementDataSource.x_kick, ATElementDataSource.y_kick,
          hmem, hc, hL, Except.map]
    · simp [ATElementDataSource.runSet, ATElementDataSource.set_value, hmem]
  · by_cases hmem : "x" ∈ ds.fields <;>
      simp [ATElementDataSource.runSet, ATElementDataSource.set_value,
        ATElementDataSource.field_functions, ATElementDataSource.Orbit,
        hmem, Except.map]
  · by_cases hmem : "y" ∈ ds.fields <;>
      simp [ATElementDataSource.runSet, ATElementDataSource.set_value,
        ATElementDataSource.field_functions, ATElementDataSource.Orbit,
        hmem, Except.map]

/-- Witness for C5 at a concrete input: setting the frequency field on a
declared adapter sets the dirty flag and signals exactly once. -/
theorem C5_dirty_flag_invariant_witness :
    (ATElementDataSource.runSet ⟨elem0, ["f"]⟩ ad0 "f" (some 7)).ad.new_changes
        = true ∧
    (ATElementDataSource.runSet ⟨elem0, ["f"]⟩ ad0 "f" (some 7)).signals = 1 :=
  (C5_dirty_flag_invariant ⟨elem0, ["f"]⟩ ad0 "f" 7).1 (by decide) rfl

/-- C6: evaluation at the failing input.  An attempted set of an orbit field
on an element adapter raises `HandleException` with no mutation and no dirty
signal, and the lattice adapter's `set_value` as defined (field only) raises
`HandleException`; but a set call that carries a value, as the `DataSource`
set interface requires, fails with `TypeError` because the method is defined
without a `value` parameter — so a caller that passes a value never sees the
read-only `HandleException` the claim promises. -/
theorem C6_read_only_fields :
    ATElementDataSource.runSet ⟨elem0, ["x", "y"]⟩ ad0 "x" (some 1) =
      ⟨elem0, ad0, 0, some .handleException⟩ ∧
    ATElementDataSource.runSet ⟨elem0, ["x", "y"]⟩ ad0 "y" (some 1) =
      ⟨elem0, ad0, 0, some .handleException⟩ ∧
    ATLatticeDataSource.set_value latticeDS0 "tune_x" =
      .error .handleException ∧
    ATLatticeDataSource.set_value_call latticeDS0 "tune_x" (1/2) =
      .error .typeError ∧
    PyErr.typeError ≠ PyErr.handleException :=
  ⟨rfl, rfl, rfl, rfl, by decide⟩

/-- C7 counterexample: on the lattice adapter, `set_value` on an undeclared
field does not raise `FieldException` as the claim states — the defined
method raises `HandleException` for every field, and a call that also passes
a value fails with `TypeError`. -/
theorem C7_counterexample_lattice_set_unknown_field :
    ATLatticeDataSource.set_value latticeDS0 "not_a_field" =
      .error .handleException ∧
    ATLatticeDataSource.set_value_call latticeDS0 "not_a_field" 0 =
      .error .typeError ∧
    PyErr.handleException ≠ PyErr.fieldException ∧
    PyErr.typeError ≠ PyErr.fieldException :=
  ⟨rfl, rfl, by decide, by decide⟩

/-- C7 (amended): on an element adapter, `get_value` and `set_value` on an
undeclared field raise `FieldException` with no mutation of element, lattice
or dirty-flag state; the lattice adapter's `get_value` on an undeclared field
raises `FieldException`; the lattice adapter's `set_value` raises
`HandleException` (not `FieldException`) regardless of the field. -/
theorem C7_unknown_fields (ds : ATElementDataSource) (ad : ATAcceleratorData)
    (lds : ATLatticeDataSource) (field : String) (v : ℚ) :
    (field ∉ ds.fields →
      ATElementDataSource.get_value ds ad field = .error .fieldException ∧
      ATElementDataSource.runSet ds ad field (some v) =
        ⟨ds.element, ad, 0, some .fieldException⟩) ∧
    (field ∉ ATLatticeDataSource.get_fields lds →
      ATLatticeDataSource.get_value lds field = .error .fieldException) ∧
    ATLatticeDataSource.set_value lds field = .error .handleException := by
  refine ⟨fun h => ⟨?_, ?_⟩, fun h => ?_, rfl⟩
  · simp [ATElementDataSource.get_value, h]
  · simp [ATElementDataSource.runSet, ATElementDataSource.set_value, h]
  · rw [ATLatticeDataSource.get_value,
      lookup_eq_none_of_not_mem field (ATLatticeDataSource.field2twiss lds) h]

/-- Witness for C7 at a concrete undeclared field name on both adapters. -/
theorem C7_unknown_fields_witness :
    ATElementDataSource.get_value ⟨elem0, ["f"]⟩ ad0 "qq" =
      .error .fieldException ∧
    ATLatticeDataSource.get_value latticeDS0 "qq" = .error .fieldException :=
  ⟨((C7_unknown_fields ⟨elem0, ["f"]⟩ ad0 latticeDS0 "qq" 0).1 (by decide)).1,
   (C7_unknown_fields ⟨elem0, ["f"]⟩ ad0 latticeDS0 "qq" 0).2.1 (by decide)⟩

/-- C8: for every writable declared field, a successful `set_value` of `v`
followed immediately by `get_value` on the resulting state returns `v`. -/
theorem C8_set_get_round_trip (ds : ATElementDataSource)
    (ad : ATAcceleratorData) (field : String) (v : ℚ)
    (e2 : AtElement) (ad2 : ATAcceleratorData) (n : ℕ)
    (hw : field ∈ writableFields)
    (hok : ATElementDataSource.set_value ds ad field (some v) =
      .ok (e2, ad2, n)) :
    ATElementDataSource.get_value ⟨e2, ds.fields⟩ ad2 field = .ok (some v) := by
  simp only [writableFields, List.mem_cons, List.not_mem_nil, or_false] at hw
  by_cases hmem : field ∈ ds.fields
  case neg => rw [ATElementDataSource.set_value, if_neg hmem] at hok; cases hok
  rcases hw with rfl | rfl | rfl | rfl | rfl | rfl | rfl
  · simp [ATElementDataSource.set_value, ATElementDataSource.field_functions,
      ATElementDataSource.PolynomA, hmem, Except.map] at hok
    obtain ⟨he, had, hn⟩ := hok
    subst he; subst had
    simp [ATElementDataSource.get_value, ATElementDataSource.field_functions,
      ATElementDataSource.PolynomA, hmem, Except.map]
  · simp [ATElementDataSource.set_value, ATElementDataSource.field_functions,
      ATElementDataSource.PolynomB, hmem, Except.map] at hok
    obtain ⟨he, had, hn⟩ := hok
    subst he; subst had
    simp [ATElementDataSource.get_value, ATElementDataSource.field_functions,
      ATElementDataSource.PolynomB, hmem, Except.map]
  · simp [ATElementDataSource.set_value, ATElementDataSource.field_functions,
      ATElementDataSource.PolynomB, hmem, Except.map] at hok
    obtain ⟨he, had, hn⟩ := hok
    subst he; subst had
    simp [ATElementDataSource.get_value, ATElementDataSource.field_functions,
      ATElementDataSource.PolynomB, hmem, Except.map]
  · simp [ATElementDataSource.set_value, ATElementDataSource.field_functions,
      ATElementDataSource.PolynomB, hmem, Except.map] at hok
    obtain ⟨he, had, hn⟩ := hok
    subst he; subst had
    simp [ATElementDataSource.get_value, ATElementDataSource.field_functions,
      ATElementDataSource.PolynomB, hmem, Except.map]
  · simp [ATElementDataSource.set_value, ATElementDataSource.field_functions,
      ATElementDataSource.Frequency, hmem, Except.map] at hok
    obtain ⟨he, had, hn⟩ := hok
    subst he; subst had
    simp [ATElementDataSource.get_value, ATElementDataSource.field_functions,
      ATElementDataSource.Frequency, hmem, Except.map]
  · by_cases hc : ds.element.atclass = AtClass.sextupole
    · by_cases hL : ds.element.Length = 0
      · simp [ATElementDataSource.set_value, ATElementDataSource.field_functions,
          ATElementDataSource.x_kick, hmem, hc, hL, Except.map] at hok
      · simp [ATElementDataSource.set_value, ATElementDataSource.field_functions,
          ATElementDataSource.x_kick, hmem, hc, hL, Except.map] at hok
        obtain ⟨he, had, hn⟩ := hok
        subst he; subst had
        simp [ATElementDataSource.get_value, ATElementDataSource.field_functions,
          ATElementDataSource.x_kick, hmem, hc, Except.map]
        field_simp
    · simp [ATElementDataSource.set_value, ATElementDataSource.field_functions,
        ATElementDataSource.x_kick, hmem, hc, Except.map] at hok
      obtain ⟨he, had, hn⟩ := hok
      subst he; subst had
      simp [ATElementDataSource.get_value, ATElementDataSource.field_functions,
        ATElementDataSource.x_kick, hmem, hc, Except.map]
  · by_cases hc : ds.element.atclass = AtClass.sextupole
    · by_cases hL : ds.element.Length = 0
      · simp [ATElementDataSource.set_value, ATElementDataSource.field_functions,
          ATElementDataSource.y_kick, hmem, hc, hL, Except.map] at hok
      · simp [ATElementDataSource.set_value, ATElementDataSource.field_functions,
          ATElementDataSource.y_kick, hmem, hc, hL, Except.map] at hok
        obtain ⟨he, had, hn⟩ := hok
        subst he; subst had
        simp [ATElementDataSource.get_value, ATElementDataSource.field_functions,
          ATElementDataSource.y_kick, hmem, hc, Except.map]
        field_simp
    · simp [ATElementDataSource.set_value, ATElementDataSource.field_functions,
        ATElementDataSource.y_kick, hmem, hc, Except.map] at hok
      obtain ⟨he, had, hn⟩ := hok
      subst he; subst had
      simp [ATElementDataSource.get_value, ATElementDataSource.field_functions,
        ATElementDataSource.y_kick, hmem, hc, Except.map]

/-- Witness for C8 at a concrete input: setting then getting the frequency
field returns the value that was set. -/
theorem C8_set_get_round_trip_witness :
    ATElementDataSource.get_value ⟨{ elem0 with Frequency := 7 }, ["f"]⟩
      { ad0 with new_changes := true } "f" = .ok (some 7) :=
  C8_set_get_round_trip ⟨elem0, ["f"]⟩ ad0 "f" 7 { elem0 with Frequency := 7 }
    { ad0 with new_changes := true } 1 (by decide) rfl

/-- C9 counterexample: 'a0' is not among the keys of the dispatch table built
in `__init__`, so on an adapter that declares 'a0' the call `get_value('a0')`
raises `KeyError` at the dictionary access instead of returning the
coefficient `PolynomA[0]`. -/
theorem C9_counterexample_a0_not_dispatched :
    ATElementDataSource.get_value ⟨elem0, ["a0"]⟩ ad0 "a0" =
      .error .keyError ∧
    Except.error PyErr.keyError ≠
      Except.ok (some (elem0.PolynomA 0)) := by
  exact ⟨rfl, fun h => Except.noConfusion h⟩

/-- C9 (amended): for the coefficient fields 'a1', 'b0', 'b1', 'b2' that are
declared on an element adapter, `get_value` returns the corresponding
`PolynomA`/`PolynomB` coefficient directly from the element; 'a0' is missing
from the dispatch table, so a declared 'a0' raises `KeyError` instead. -/
theorem C9_coefficient_getters (e : AtElement) (ad : ATAcceleratorData)
    (fs : List String) :
    ("a1" ∈ fs → ATElementDataSource.get_value ⟨e, fs⟩ ad "a1" =
      .ok (some (e.PolynomA 1))) ∧
    ("b0" ∈ fs → ATElementDataSource.get_value ⟨e, fs⟩ ad "b0" =
      .ok (some (e.PolynomB 0))) ∧
    ("b1" ∈ fs → ATElementDataSource.get_value ⟨e, fs⟩ ad "b1" =
      .ok (some (e.PolynomB 1))) ∧
    ("b2" ∈ fs → ATElementDataSource.get_value ⟨e, fs⟩ ad "b2" =
      .ok (some (e.PolynomB 2))) ∧
    ("a0" ∈ fs → ATElementDataSource.get_value ⟨e, fs⟩ ad "a0" =
      .error .keyError) := by
  refine ⟨fun h => ?_, fun h => ?_, fun h => ?_, fun h => ?_, fun h => ?_⟩ <;>
    simp [ATElementDataSource.get_value, ATElementDataSource.field_functions,
      ATElementDataSource.PolynomA, ATElementDataSource.PolynomB, h, Except.map]

/-- Witness for C9 at a concrete adapter declaring all five coefficient
fields. -/
theorem C9_coefficient_getters_witness :
    ATElementDataSource.get_value ⟨elem0, ["a0", "a1", "b0", "b1", "b2"]⟩ ad0
      "a1" = .ok (some (elem0.PolynomA 1)) ∧
    ATElementDataSource.get_value ⟨elem0, ["a0", "a1", "b0", "b1", "b2"]⟩ ad0
      "a0" = .error .keyError :=
  ⟨(C9_coefficient_getters elem0 ad0 ["a0", "a1", "b0", "b1", "b2"]).1
     (by decide),
   (C9_coefficient_getters elem0 ad0 ["a0", "a1", "b0", "b1", "b2"]).2.2.2.2
     (by decide)⟩

/-- C10: calling `set_value` with Python `None` on a writable declared field
is routed to the get branch of the field function (the value doubles as the
get/set flag), so the call succeeds while storing nothing: the element, the
accelerator data and the dirty flag are all left unchanged and no dirty
signal is issued. -/
theorem C10_none_value_is_get (ds : ATElementDataSource)
    (ad : ATAcceleratorData) (field : String)
    (hw : field ∈ writableFields) (hd : field ∈ ds.fields) :
    ATElementDataSource.runSet ds ad field none =
      ⟨ds.element, ad, 0, none⟩ := by
  simp only [writableFields, List.mem_cons, List.not_mem_nil, or_false] at hw
  rcases hw with rfl | rfl | rfl | rfl | rfl | rfl | rfl <;>
    by_cases hc : ds.element.atclass = AtClass.sextupole <;>
    simp [ATElementDataSource.runSet, ATElementDataSource.set_value,
      ATElementDataSource.field_functions, ATElementDataSource.PolynomA,
      ATElementDataSource.PolynomB, ATElementDataSource.Frequency,
      ATElementDataSource.x_kick, ATElementDataSource.y_kick, hd, hc,
      Except.map]

/-- Witness for C10 at a concrete input: a `None`-valued set on the declared
frequency field changes nothing and raises nothing. -/
theorem C10_none_value_is_get_witness :
    ATElementDataSource.runSet ⟨elem0, ["f"]⟩ ad0 "f" none =
      ⟨elem0, ad0, 0, none⟩ :=
  C10_none_value_is_get ⟨elem0, ["f"]⟩ ad0 "f" (by decide) (by decide)
